import Mathlib

set_option maxRecDepth 8000

/-
Verification development for the Gemini_News verification pipeline
(src/Backend/Gemini_News/verify_news.py).

The pipeline is shallowly embedded: the external collaborators (the Gemini
text-generation model, the Tavily search client, and the JSON parser applied
to the ranking response) are modelled by an explicit `Oracle` value that
records, for one run, the outcome of each collaborator call.  All string
processing performed by the Python code (strip, split, replace, title,
int conversion) is re-implemented here on lists of characters by structural
recursion so that every definition evaluates inside the kernel.
-/

/-- Whitespace class of Python str.strip: space, tab, newline, carriage
return, vertical tab (11) and form feed (12). -/
def pySpace (c : Char) : Bool :=
  c == ' ' || c == '\t' || c == '\n' || c == '\r' || c.toNat == 11 || c.toNat == 12

/-- Strip Python-style whitespace from both ends of a character list. -/
def stripChars (l : List Char) : List Char :=
  ((l.dropWhile pySpace).reverse.dropWhile pySpace).reverse

/-- Python str.strip(). -/
def pyStrip (s : String) : String := String.mk (stripChars s.data)

/-- Accumulator-based splitting of a character list at a separator. -/
def splitOnCharAux (sep : Char) : List Char → List Char → List (List Char)
  | acc, [] => [acc.reverse]
  | acc, c :: cs =>
      if c == sep then acc.reverse :: splitOnCharAux sep [] cs
      else splitOnCharAux sep (c :: acc) cs

/-- Python s.split(sep) for a one-character separator. -/
def splitOnChar (sep : Char) (s : String) : List String :=
  (splitOnCharAux sep [] s.data).map String.mk

/-- Characters after the first occurrence of sep, if sep occurs. -/
def splitOnceTailAux (sep : Char) : List Char → Option (List Char)
  | [] => none
  | c :: cs => if c == sep then some cs else splitOnceTailAux sep cs

/-- Python s.split(sep, 1)[-1]: the text after the first occurrence of the
separator, or the whole string when the separator does not occur. -/
def splitOnceTail (sep : Char) (s : String) : String :=
  match splitOnceTailAux sep s.data with
  | none => s
  | some rest => String.mk rest

/-- Python s.lstrip(dash): drop every leading dash character. -/
def dropDashes (s : String) : String :=
  String.mk (s.data.dropWhile (fun c => c == '-'))

/-- Python line[0].isdigit() guarded by non-emptiness. -/
def headIsDigit (s : String) : Bool :=
  match s.data with
  | [] => false
  | c :: _ => c.isDigit

/-- Python line.startswith(dash). -/
def startsWithDash (s : String) : Bool :=
  match s.data with
  | [] => false
  | c :: _ => c == '-'

/-- Does the pattern occur at the head of the text? -/
def matchesAt : List Char → List Char → Bool
  | [], _ => true
  | _ :: _, [] => false
  | p :: ps, c :: cs => p == c && matchesAt ps cs

/-- Fuel-bounded single pass removing every occurrence of a pattern. -/
def replaceAllAux (pat : List Char) : Nat → List Char → List Char
  | 0, l => l
  | _ + 1, [] => []
  | fuel + 1, c :: cs =>
      if matchesAt pat (c :: cs) then replaceAllAux pat fuel (cs.drop (pat.length - 1))
      else c :: replaceAllAux pat fuel cs

/-- Python s.replace(pat, empty) for a non-empty pattern: every occurrence of
the pattern is removed, scanning left to right. -/
def replaceAll (pat : String) (s : String) : String :=
  String.mk (replaceAllAux pat.data s.data.length s.data)

/-- One pass of Python str.title(): an alphabetic character is uppercased when
the previous character was not alphabetic and lowercased otherwise. -/
def pyTitleAux : Bool → List Char → List Char
  | _, [] => []
  | prev, c :: cs =>
      if c.isAlpha then (if prev then c.toLower else c.toUpper) :: pyTitleAux true cs
      else c :: pyTitleAux false cs

/-- Python str.title() restricted to ASCII letters. -/
def pyTitle (s : String) : String := String.mk (pyTitleAux false s.data)

/-- Python sep.join(parts). -/
def joinSep (sep : String) : List String → String
  | [] => ""
  | [s] => s
  | s :: rest => s ++ sep ++ joinSep sep rest

/-- Digits-only reading of a character list, none when empty or non-digit. -/
def digitsToNat (cs : List Char) : Option Nat :=
  if cs.isEmpty then none
  else if cs.all Char.isDigit then
    some (cs.foldl (fun a c => a * 10 + (c.toNat - 48)) 0)
  else none

/-- Python int(s) on a decimal string literal: surrounding whitespace is
stripped, one optional sign is allowed, then at least one digit. -/
def pyIntOfString (s : String) : Option Int :=
  match (pyStrip s).data with
  | [] => none
  | c :: cs =>
      if c == '-' then (digitsToNat cs).map (fun n => -(n : Int))
      else if c == '+' then (digitsToNat cs).map (fun n => (n : Int))
      else (digitsToNat (c :: cs)).map (fun n => (n : Int))

/-- JSON values, the shape of every dictionary the pipeline returns and of
the object produced by json.loads on the ranking response. -/
inductive JsonVal where
  | jNull : JsonVal
  | jBool : Bool → JsonVal
  | jInt : Int → JsonVal
  | jStr : String → JsonVal
  | jArr : List JsonVal → JsonVal
  | jObj : List (String × JsonVal) → JsonVal

/-- First binding of a key in an association list of JSON fields. -/
def lookupField : List (String × JsonVal) → String → Option JsonVal
  | [], _ => none
  | p :: rest, k => if p.1 == k then some p.2 else lookupField rest k

/-- Field access on a JSON object; none on any non-object value. -/
def JsonVal.getField (j : JsonVal) (k : String) : Option JsonVal :=
  match j with
  | .jObj fields => lookupField fields k
  | _ => none

/-- String-valued field access. -/
def JsonVal.getStr (j : JsonVal) (k : String) : Option String :=
  match j.getField k with
  | some (.jStr s) => some s
  | _ => none

/-- The top_5_sources field of a result, when it is an array. -/
def JsonVal.topSources (j : JsonVal) : Option (List JsonVal) :=
  match j.getField "top_5_sources" with
  | some (.jArr xs) => some xs
  | _ => none

/-- A value of the Real/Fake input field: the JSON input may carry a number
or a string there; Python applies int() to it. -/
inductive PyVal where
  | pInt : Int → PyVal
  | pStr : String → PyVal
  deriving DecidableEq

/-- Python bool(int(v)) preparation: int() on the Real/Fake field value,
raising ValueError (modelled as Except.error) on a non-numeric string. -/
def pyToInt : PyVal → Except String Int
  | .pInt n => .ok n
  | .pStr s =>
      match pyIntOfString s with
      | some n => .ok n
      | none => .error ("invalid literal for int() with base 10: " ++ s)

/-- A raw Tavily search hit as received, every field possibly absent. -/
structure RawHit where
  url : Option String
  title : Option String
  content : Option String
  score : Option Int
  published_date : Option String
  deriving DecidableEq

/-- A normalized evidence hit, after the .get(field, default) defaults of
search_supporting_evidence. -/
structure Hit where
  url : String
  title : String
  content : String
  score : Int
  published_date : String
  deriving DecidableEq

/-- The normalization applied to each raw hit in search_supporting_evidence:
missing url/title/content/published_date default to the empty string and a
missing score defaults to 0. -/
def normalizeHit (r : RawHit) : Hit :=
  ⟨r.url.getD "", r.title.getD "", r.content.getD "", r.score.getD 0,
   r.published_date.getD ""⟩

/-- Outcome of one Gemini generate_content call used for claim extraction:
either the free-text response, or an exception. -/
inductive GenResponse where
  | ok : String → GenResponse
  | raise : String → GenResponse
  deriving DecidableEq

/-- Outcome of the one Tavily search call: an exception, or a response dict
which may or may not contain a results key, carrying raw hits. -/
inductive SearchOutcome where
  | raise : String → SearchOutcome
  | ok : Bool → List RawHit → SearchOutcome
  deriving DecidableEq

/-- Outcome of the Gemini call made by select_top_5_with_explanations,
combined with the fence clean-up and json.loads applied to its text:
raise models an exception from the service call itself, parsed j models a
cleaned response text that json.loads turns into the JSON value j, and
parseError models a cleaned response text that is not valid JSON. -/
inductive RankOutcome where
  | raise : String → RankOutcome
  | parsed : JsonVal → RankOutcome
  | parseError : String → RankOutcome

/-- Did the ranking response reach the successful json.loads path? -/
def RankOutcome.isParsed : RankOutcome → Bool
  | .parsed _ => true
  | _ => false

/-- The behaviour of every external collaborator during one pipeline run:
whether configure_apis raises, the claim-extraction response, the search
outcome and the ranking outcome. -/
structure Oracle where
  configFail : Option String
  claimsResp : GenResponse
  searchOutcome : SearchOutcome
  rankResp : RankOutcome

/-- The input record of verify_news_with_ground_truth: the Text, Imagetext,
Link text and Real/Fake fields, each possibly absent. -/
structure NewsInput where
  text : Option String
  imagetext : Option String
  linkText : Option String
  realFake : Option PyVal
  deriving DecidableEq

/-- The trusted Indian news domain allowlist, verbatim from the source. -/
def INDIAN_NEWS_DOMAINS : List String :=
  ["timesofindia.indiatimes.com", "thehindu.com", "hindustantimes.com",
   "indianexpress.com", "ndtv.com", "thequint.com", "thewire.in", "scroll.in",
   "news18.com", "zeenews.india.com", "dnaindia.com", "deccanherald.com",
   "firstpost.com", "livemint.com", "businesstoday.in",
   "economictimes.indiatimes.com", "moneycontrol.com", "outlookindia.com",
   "newslaundry.com", "india.com", "mumbaimirror.indiatimes.com",
   "tribuneindia.com", "newindianexpress.com", "freepressjournal.in"]

/-- The label string the code derives from is_real. -/
def labelStr (is_real : Bool) : String := if is_real then "REAL" else "FAKE"

/-- The ground-truth mapping of the spec: 0 maps to FAKE and any other
integer (in particular 1) maps to REAL. -/
def mappedLabel (n : Int) : String := if n == 0 then "FAKE" else "REAL"

/-- extract_claims_for_verification, given the collaborator response: on an
exception it returns the empty list; otherwise it strips the response text,
walks its lines, keeps each non-empty line whose first character is a digit
or a dash, replaces the line by the text after its first period (the whole
line when it has none), strips it, removes leading dashes, strips again,
keeps the result when non-empty, and finally truncates to 5 claims. -/
def extract_claims_for_verification (resp : GenResponse) : List String :=
  match resp with
  | .raise _ => []
  | .ok txt =>
      let claims := (splitOnChar '\n' (pyStrip txt)).foldl (fun claims line =>
        let l := pyStrip line
        if l != "" && (headIsDigit l || startsWithDash l) then
          let claim := pyStrip (dropDashes (pyStrip (splitOnceTail '.' l)))
          if claim != "" then claims ++ [claim] else claims
        else claims) []
      claims.take 5

/-- The parameter record of the one Tavily search call. -/
structure SearchCall where
  query : String
  include_domains : List String
  max_results : Nat
  search_depth : String
  days : Nat
  deriving DecidableEq

/-- The hits search_supporting_evidence returns for a given call outcome:
empty on an exception or on a response without a results key, otherwise the
normalized raw hits in order. -/
def searchHitsOf : SearchOutcome → List Hit
  | .raise _ => []
  | .ok hasResults hits => if hasResults then hits.map normalizeHit else []

/-- search_supporting_evidence: builds the one search call (OR-joined claims
followed by the label-dependent bias phrase, the fixed domain allowlist,
max_results 20, advanced depth, 365 days) and yields the normalized hits
delivered by the collaborator. -/
def search_supporting_evidence (claims : List String) (is_real : Bool)
    (outcome : SearchOutcome) : SearchCall × List Hit :=
  (⟨joinSep " OR " claims ++
      (if is_real then " confirmed true verified"
       else " false fake debunked hoax misinformation"),
    INDIAN_NEWS_DOMAINS, 20, "advanced", 365⟩,
   searchHitsOf outcome)

/-- The host position of r.url.split(slash)[2], raising (none) when the URL
has fewer than three slash-separated segments. -/
def hostOf (url : String) : Option String := (splitOnChar '/' url).get? 2

/-- The fallback source_name derivation of select_top_5_with_explanations:
url.split(slash)[2].replace(www-dot, empty).split(dot)[0].title(); none when
the indexing raises. -/
def sourceName (url : String) : Option String :=
  match hostOf url with
  | none => none
  | some host =>
      some (pyTitle ((splitOnChar '.' (replaceAll "www." host)).headD ""))

/-- One entry of the JSON-parse-failure fallback source list, for the hit at
index i; none when the source_name derivation raises. -/
def fallbackSource (i : Nat) (r : Hit) : Option JsonVal :=
  match sourceName r.url with
  | none => none
  | some nm =>
      some (.jObj
        [("rank", .jInt ((i : Int) + 1)),
         ("url", .jStr r.url),
         ("title", .jStr r.title),
         ("source_name", .jStr nm),
         ("relevance", .jStr "medium"),
         ("explanation", .jStr "This source provides information related to the claims in the article.")])

/-- Left-to-right construction of the fallback source list, aborting (like
the Python list comprehension) at the first entry whose URL indexing raises. -/
def fallbackSourcesAux : Nat → List Hit → Option (List JsonVal)
  | _, [] => some []
  | i, r :: rs =>
      match fallbackSource i r with
      | none => none
      | some s =>
          match fallbackSourcesAux (i + 1) rs with
          | none => none
          | some ss => some (s :: ss)

/-- select_top_5_with_explanations, given the hits and the ranking outcome.
On the successful json.loads path the parsed value is returned verbatim.
On a JSONDecodeError the fallback result is synthesized from the first five
hits; an IndexError inside that synthesis (a URL with fewer than three
slash-separated segments) is not caught by the handler and escapes as
Except.error.  On any other exception a sourceless result embedding the
error message is returned. -/
def select_top_5_with_explanations (is_real : Bool) (search_results : List Hit)
    (resp : RankOutcome) : Except String JsonVal :=
  match resp with
  | .parsed j => .ok j
  | .raise msg =>
      .ok (.jObj
        [("label", .jStr (labelStr is_real)),
         ("overall_explanation", .jStr ("Error during analysis: " ++ msg)),
         ("top_5_sources", .jArr [])])
  | .parseError _ =>
      match fallbackSourcesAux 0 (search_results.take 5) with
      | none => .error "list index out of range"
      | some srcs =>
          .ok (.jObj
            [("label", .jStr (labelStr is_real)),
             ("overall_explanation", .jStr ("Analysis indicates this news appears to be "
                ++ (if is_real then "real" else "fake") ++ " based on available sources.")),
             ("top_5_sources", .jArr srcs)])

/-- The result returned when claim extraction yields no claims. -/
def emptyClaimsResult (is_real : Bool) : JsonVal :=
  .jObj [("label", .jStr (labelStr is_real)),
         ("overall_explanation", .jStr "Could not extract claims for verification"),
         ("top_5_sources", .jArr [])]

/-- The result returned when evidence search yields no hits. -/
def noEvidenceResult (is_real : Bool) : JsonVal :=
  .jObj [("label", .jStr (labelStr is_real)),
         ("overall_explanation", .jStr ("No supporting sources found to "
            ++ (if is_real then "verify" else "debunk") ++ " this news")),
         ("top_5_sources", .jArr [])]

/-- The result built by the top-level exception handler. -/
def errorResult (e : String) : JsonVal :=
  .jObj [("label", .jStr "ERROR"),
         ("overall_explanation", .jStr ("Error during verification: " ++ e)),
         ("top_5_sources", .jArr []),
         ("error", .jStr e)]

/-- Which collaborator calls one run performed, and whether the ranking
response went through the successful json.loads path. -/
structure RunInfo where
  extractCalled : Bool
  searchCalled : Bool
  rankCalled : Bool
  parsedOk : Bool
  deriving DecidableEq

/-- The run record of a request rejected before any collaborator call. -/
def noRun : RunInfo := ⟨false, false, false, false⟩

/-- The pipeline after input validation and label conversion: configure the
APIs, extract claims (short-circuiting to emptyClaimsResult), search
evidence (short-circuiting to noEvidenceResult), then rank and explain.
The Except.error side carries an exception travelling to the top handler. -/
def pipelineAfterLabel (is_real : Bool) (o : Oracle) :
    Except String JsonVal × RunInfo :=
  match o.configFail with
  | some msg => (.error ("API configuration failed: " ++ msg), noRun)
  | none =>
      let claims := extract_claims_for_verification o.claimsResp
      if claims.isEmpty then
        (.ok (emptyClaimsResult is_real), ⟨true, false, false, false⟩)
      else
        let search_results := (search_supporting_evidence claims is_real o.searchOutcome).2
        if search_results.isEmpty then
          (.ok (noEvidenceResult is_real), ⟨true, true, false, false⟩)
        else
          match select_top_5_with_explanations is_real search_results o.rankResp with
          | .ok r => (.ok r, ⟨true, true, true, o.rankResp.isParsed⟩)
          | .error e => (.error e, ⟨true, true, true, false⟩)

/-- The try-block of verify_news_with_ground_truth: read the input fields,
reject an empty Text or an absent Real/Fake label, convert the label with
bool(int(label)), then run the staged pipeline. -/
def pipelineBody (inp : NewsInput) (o : Oracle) :
    Except String JsonVal × RunInfo :=
  if inp.text.getD "" = "" then (.error "News text is required", noRun)
  else
    match inp.realFake with
    | none => (.error "Real/Fake label is required (1 for real, 0 for fake)", noRun)
    | some v =>
        match pyToInt v with
        | .error e => (.error e, noRun)
        | .ok n => pipelineAfterLabel (n != 0) o

/-- verify_news_with_ground_truth: the try-block wrapped in the top-level
handler that converts any exception into the ERROR result. -/
def verify_news_with_ground_truth (inp : NewsInput) (o : Oracle) : JsonVal :=
  match (pipelineBody inp o).1 with
  | .ok r => r
  | .error e => errorResult e

/-- The collaborator-call record of one run. -/
def verifyInfo (inp : NewsInput) (o : Oracle) : RunInfo := (pipelineBody inp o).2

/-- Per-line claim parsing as the (amended) specification describes it: a
non-empty stripped line beginning with a digit or a dash yields the text
after the first period of the line (the whole line when it has none),
stripped, with leading dashes removed and stripped again, kept only when
the result is non-empty. -/
def specLineClaim (line : String) : Option String :=
  let l := pyStrip line
  if l != "" && (headIsDigit l || startsWithDash l) then
    let c := pyStrip (dropDashes (pyStrip (splitOnceTail '.' l)))
    if c != "" then some c else none
  else none

/-- Claim extraction as the (amended) specification describes it: the
parseable lines in order, truncated to five; the empty list on an error. -/
def claimsSpec (resp : GenResponse) : List String :=
  match resp with
  | .raise _ => []
  | .ok txt => ((splitOnChar '\n' (pyStrip txt)).filterMap specLineClaim).take 5

/-- The fallback source name as the (amended) specification describes it:
the third slash-separated segment of the URL, with every occurrence of the
substring www-dot removed, cut at the first dot, title-cased. -/
def specFallbackName (url : String) : String :=
  pyTitle ((splitOnChar '.' (replaceAll "www." ((hostOf url).getD ""))).headD "")

/-- The fallback source entry the (amended) specification prescribes for the
hit at index i. -/
def specFallbackEntry (i : Nat) (r : Hit) : JsonVal :=
  .jObj [("rank", .jInt ((i : Int) + 1)),
         ("url", .jStr r.url),
         ("title", .jStr r.title),
         ("source_name", .jStr (specFallbackName r.url)),
         ("relevance", .jStr "medium"),
         ("explanation", .jStr "This source provides information related to the claims in the article.")]

/-- Do the rank fields of a source list read n, n+1, n+2, ...? -/
def ranksFrom : Int → List JsonVal → Bool
  | _, [] => true
  | n, s :: ss =>
      (match s.getField "rank" with
       | some (.jInt m) => m == n
       | _ => false) && ranksFrom (n + 1) ss

/-- The top-sources invariant of the specification: the result carries a
top_5_sources array of at most five entries whose ranks are exactly
1..k in order (hence unique, dense from 1 and strictly ascending). -/
def goodTopSources (j : JsonVal) : Bool :=
  match j.topSources with
  | some xs => decide (xs.length ≤ 5) && ranksFrom 1 xs
  | none => false

/-- Sample article text used by the concrete runs below. -/
def sampleText : String := "City launches tree-planting drive"

/-- A valid request: non-empty text, ground-truth label 1. -/
def sampleInput : NewsInput := ⟨some sampleText, none, none, some (.pInt 1)⟩

/-- A raw search hit from a trusted domain. -/
def sampleRaw : RawHit :=
  ⟨some "https://www.ndtv.com/india-news/story", some "Story title",
   some "Story content", some 1, some "2025-01-01"⟩

/-- The normalized form of sampleRaw. -/
def sampleHit : Hit :=
  ⟨"https://www.ndtv.com/india-news/story", "Story title", "Story content", 1,
   "2025-01-01"⟩

/-- A hit whose URL has no host segment: split on slashes it has a single
segment, so indexing position 2 raises. -/
def badHit : Hit := ⟨"notaurl", "Bad title", "c", 0, ""⟩

/-- A run in which every stage succeeds and the ranking response parses to
an object whose label is neither REAL nor FAKE nor ERROR. -/
def orParsedBanana : Oracle :=
  ⟨none, .ok "1. A tree drive was launched", .ok true [sampleRaw],
   .parsed (.jObj [("label", .jStr "BANANA"),
                   ("overall_explanation", .jStr "whatever"),
                   ("top_5_sources", .jArr [])])⟩

/-- A run in which every stage succeeds and the ranking response parses to
an object whose single source carries rank 3. -/
def orParsedBadSources : Oracle :=
  ⟨none, .ok "1. A tree drive was launched", .ok true [sampleRaw],
   .parsed (.jObj [("label", .jStr "REAL"),
                   ("overall_explanation", .jStr "whatever"),
                   ("top_5_sources", .jArr [.jObj [("rank", .jInt 3)]])])⟩

/-- A run whose claim-extraction response contains no parseable line. -/
def orNoClaims : Oracle :=
  ⟨none, .ok "no claims here", .ok true [sampleRaw], .raise "unused"⟩

/-- A run whose search returns zero hits. -/
def orNoHits : Oracle :=
  ⟨none, .ok "1. A tree drive was launched", .ok true [], .raise "unused"⟩

/-- A run whose ranking response is not valid JSON. -/
def orParseFail : Oracle :=
  ⟨none, .ok "1. A tree drive was launched", .ok true [sampleRaw],
   .parseError "Expecting value"⟩

/-- An arbitrary concrete oracle, for runs rejected before any call. -/
def orAny : Oracle := ⟨none, .ok "", .ok false [], .raise "x"⟩

/-- A request whose Text field is missing. -/
def inpMissingText : NewsInput := ⟨none, none, none, some (.pInt 1)⟩

/-- A valid request whose Real/Fake value is the out-of-range integer 2. -/
def inpLabel2 : NewsInput := ⟨some sampleText, none, none, some (.pInt 2)⟩

/-- A valid request whose Real/Fake value is the non-numeric string real. -/
def inpLabelWord : NewsInput := ⟨some sampleText, none, none, some (.pStr "real")⟩

lemma labelStr_mapped (n : Int) : labelStr (n != 0) = mappedLabel n := by
  unfold labelStr mappedLabel
  by_cases h : n = 0 <;> simp [h]

lemma pipelineBody_valid (inp : NewsInput) (o : Oracle) (v : PyVal) (n : Int)
    (hT : inp.text.getD "" ≠ "") (hL : inp.realFake = some v)
    (hn : pyToInt v = .ok n) :
    pipelineBody inp o = pipelineAfterLabel (n != 0) o := by
  unfold pipelineBody
  rw [if_neg hT, hL]
  dsimp only
  rw [hn]

lemma extract_foldl_step (acc : List String) (line : String) :
    (let l := pyStrip line
     if l != "" && (headIsDigit l || startsWithDash l) then
       let claim := pyStrip (dropDashes (pyStrip (splitOnceTail '.' l)))
       if claim != "" then acc ++ [claim] else acc
     else acc) = acc ++ (specLineClaim line).toList := by
  unfold specLineClaim
  dsimp only
  split_ifs <;> simp [Option.toList]

lemma extract_foldl_filterMap (lines : List String) (acc : List String) :
    lines.foldl (fun claims line =>
      let l := pyStrip line
      if l != "" && (headIsDigit l || startsWithDash l) then
        let claim := pyStrip (dropDashes (pyStrip (splitOnceTail '.' l)))
        if claim != "" then claims ++ [claim] else claims
      else claims) acc = acc ++ lines.filterMap specLineClaim := by
  induction lines generalizing acc with
  | nil => simp
  | cons line rest ih =>
      rw [List.foldl_cons, List.filterMap_cons]
      rw [extract_foldl_step acc line]
      rw [ih]
      cases h : specLineClaim line <;> simp [Option.toList]

lemma fallbackAux_good : ∀ (l : List Hit) (i : Nat) (ss : List JsonVal),
    fallbackSourcesAux i l = some ss →
    ss.length = l.length ∧ ranksFrom ((i : Int) + 1) ss = true := by
  intro l
  induction l with
  | nil =>
      intro i ss h
      unfold fallbackSourcesAux at h
      injection h with h
      subst h
      exact ⟨rfl, rfl⟩
  | cons r rs ih =>
      intro i ss h
      unfold fallbackSourcesAux at h
      cases hs : fallbackSource i r with
      | none => rw [hs] at h; exact absurd h (by simp)
      | some s =>
          rw [hs] at h
          cases hrest : fallbackSourcesAux (i + 1) rs with
          | none => rw [hrest] at h; exact absurd h (by simp)
          | some ss2 =>
              rw [hrest] at h
              injection h with h
              subst h
              obtain ⟨hlen, hranks⟩ := ih (i + 1) ss2 hrest
              refine ⟨by simp [hlen], ?_⟩
              unfold fallbackSource at hs
              cases hname : sourceName r.url with
              | none => rw [hname] at hs; exact absurd hs (by simp)
              | some nm =>
                  rw [hname] at hs
                  injection hs with hs
                  subst hs
                  have hcast : ((i + 1 : Nat) : Int) + 1 = ((i : Int) + 1) + 1 := by
                    push_cast
                    ring
                  rw [hcast] at hranks
                  unfold ranksFrom
                  simp [JsonVal.getField, lookupField, hranks]

lemma fallbackAux_hosts : ∀ (l : List Hit) (i : Nat),
    (∀ h ∈ l, (hostOf h.url).isSome = true) →
    fallbackSourcesAux i l
      = some ((List.enumFrom i l).map (fun p => specFallbackEntry p.1 p.2)) := by
  intro l
  induction l with
  | nil => intro i _; rfl
  | cons r rs ih =>
      intro i hall
      have hr : (hostOf r.url).isSome = true := hall r (List.mem_cons_self r rs)
      obtain ⟨host, hhost⟩ := Option.isSome_iff_exists.mp hr
      have htail : ∀ h ∈ rs, (hostOf h.url).isSome = true :=
        fun h hm => hall h (List.mem_cons_of_mem r hm)
      unfold fallbackSourcesAux fallbackSource sourceName
      rw [hhost, ih (i + 1) htail]
      simp [List.enumFrom, specFallbackEntry, specFallbackName, hhost]

lemma afterLabel_cases (b : Bool) (o : Oracle) :
    (∃ j, o.rankResp = RankOutcome.parsed j ∧ (pipelineAfterLabel b o).1 = Except.ok j)
    ∨ (∃ r, (pipelineAfterLabel b o).1 = Except.ok r
        ∧ r.getStr "label" = some (labelStr b) ∧ goodTopSources r = true)
    ∨ (∃ e, (pipelineAfterLabel b o).1 = Except.error e) := by
  obtain ⟨cf, cr, so, rr⟩ := o
  cases cf with
  | some m => exact Or.inr (Or.inr ⟨"API configuration failed: " ++ m, rfl⟩)
  | none =>
      by_cases hce : (extract_claims_for_verification cr).isEmpty = true
      · refine Or.inr (Or.inl ⟨emptyClaimsResult b, ?_, rfl, rfl⟩)
        simp [pipelineAfterLabel, hce]
      · by_cases hse : (searchHitsOf so).isEmpty = true
        · refine Or.inr (Or.inl ⟨noEvidenceResult b, ?_, rfl, rfl⟩)
          simp [pipelineAfterLabel, hce, hse, search_supporting_evidence]
        · cases rr with
          | raise m =>
              refine Or.inr (Or.inl
                ⟨JsonVal.jObj
                  [("label", JsonVal.jStr (labelStr b)),
                   ("overall_explanation", JsonVal.jStr ("Error during analysis: " ++ m)),
                   ("top_5_sources", JsonVal.jArr [])], ?_, rfl, rfl⟩)
              simp [pipelineAfterLabel, hce, hse, search_supporting_evidence,
                select_top_5_with_explanations]
          | parsed j =>
              refine Or.inl ⟨j, rfl, ?_⟩
              simp [pipelineAfterLabel, hce, hse, search_supporting_evidence,
                select_top_5_with_explanations]
          | parseError m =>
              cases hfb : fallbackSourcesAux 0 ((searchHitsOf so).take 5) with
              | none =>
                  refine Or.inr (Or.inr ⟨"list index out of range", ?_⟩)
                  simp [pipelineAfterLabel, hce, hse, search_supporting_evidence,
                    select_top_5_with_explanations, hfb]
              | some srcs =>
                  obtain ⟨hlen, hranks⟩ := fallbackAux_good _ 0 srcs hfb
                  have hle : srcs.length ≤ 5 := by
                    rw [hlen]
                    exact List.length_take_le 5 _
                  have h1 : ranksFrom 1 srcs = true := by simpa using hranks
                  refine Or.inr (Or.inl
                    ⟨JsonVal.jObj
                      [("label", JsonVal.jStr (labelStr b)),
                       ("overall_explanation", JsonVal.jStr ("Analysis indicates this news appears to be "
                          ++ (if b then "real" else "fake") ++ " based on available sources.")),
                       ("top_5_sources", JsonVal.jArr srcs)], ?_, rfl, ?_⟩)
                  · simp [pipelineAfterLabel, hce, hse, search_supporting_evidence,
                      select_top_5_with_explanations, hfb]
                  · simp [goodTopSources, JsonVal.topSources, JsonVal.getField,
                      lookupField, hle, h1]

/-- C6 (amended): for every claim-extraction response, the extracted claims
are exactly one claim per non-empty line beginning with a digit or a dash,
where the claim is the text after the first period anywhere in the line (the
whole line when it has none), stripped, with leading dashes removed and
stripped again; claims that become empty are discarded, the list keeps the
line order and is truncated to at most 5; a collaborator error or a response
with no parseable line gives the empty sequence.  Note the code does not
merely strip a leading enumeration marker: it always cuts at the first
period of the line. -/
theorem claim_C6 (resp : GenResponse) :
    extract_claims_for_verification resp = claimsSpec resp
    ∧ (extract_claims_for_verification resp).length ≤ 5 := by
  have heq : extract_claims_for_verification resp = claimsSpec resp := by
    cases resp with
    | raise m => rfl
    | ok txt =>
        unfold extract_claims_for_verification claimsSpec
        dsimp only
        rw [extract_foldl_filterMap]
        simp
  refine ⟨heq, ?_⟩
  rw [heq]
  cases resp with
  | raise m => simp [claimsSpec]
  | ok txt =>
      unfold claimsSpec
      exact List.length_take_le 5 _

/-- C6 counterexample: on the line beginning with a dash whose text contains
a period, the code does not preserve the text after the enumeration marker:
everything up to the first period of the line is discarded. -/
theorem claim_C6_counterexample :
    extract_claims_for_verification (GenResponse.ok "- GDP grew 7.5 percent")
      = ["5 percent"]
    ∧ (["5 percent"] : List String) ≠ ["GDP grew 7.5 percent"] :=
  ⟨rfl, by decide⟩

/-- C7: for every non-empty claim list and every label, the search call is
built with query equal to the claims joined by OR followed by the
label-dependent bias phrase, the fixed 24-domain allowlist, at most 20
results, the advanced (deep) search depth and a 365-day recency window. -/
theorem claim_C7 (claims : List String) (is_real : Bool)
    (outcome : SearchOutcome) (hne : claims ≠ []) :
    (search_supporting_evidence claims is_real outcome).1 =
      ⟨joinSep " OR " claims ++
         (if is_real then " confirmed true verified"
          else " false fake debunked hoax misinformation"),
       ["timesofindia.indiatimes.com", "thehindu.com", "hindustantimes.com",
        "indianexpress.com", "ndtv.com", "thequint.com", "thewire.in", "scroll.in",
        "news18.com", "zeenews.india.com", "dnaindia.com", "deccanherald.com",
        "firstpost.com", "livemint.com", "businesstoday.in",
        "economictimes.indiatimes.com", "moneycontrol.com", "outlookindia.com",
        "newslaundry.com", "india.com", "mumbaimirror.indiatimes.com",
        "tribuneindia.com", "newindianexpress.com", "freepressjournal.in"],
       20, "advanced", 365⟩ := rfl

/-- C7 witness: the call built for two concrete claims with the real label. -/
theorem claim_C7_witness :
    (["city planted trees", "mayor announced program"] : List String) ≠ []
    ∧ (search_supporting_evidence ["city planted trees", "mayor announced program"]
         true (SearchOutcome.ok true [])).1 =
      ⟨"city planted trees OR mayor announced program confirmed true verified",
       INDIAN_NEWS_DOMAINS, 20, "advanced", 365⟩ := by
  refine ⟨by decide, ?_⟩
  exact claim_C7 ["city planted trees", "mayor announced program"] true
    (SearchOutcome.ok true []) (by decide)

/-- C8: for every input and every collaborator behaviour the orchestrator
never propagates an exception: either the try-block produced a result and
that result is returned, or it raised and the caller receives the ERROR
result embedding the exception text, with an empty source list and an
explicit error field. -/
theorem claim_C8 (inp : NewsInput) (o : Oracle) :
    (∃ r, (pipelineBody inp o).1 = Except.ok r
        ∧ verify_news_with_ground_truth inp o = r)
    ∨ (∃ e, (pipelineBody inp o).1 = Except.error e
        ∧ verify_news_with_ground_truth inp o = errorResult e
        ∧ (errorResult e).getStr "label" = some "ERROR"
        ∧ (errorResult e).getStr "overall_explanation"
            = some ("Error during verification: " ++ e)
        ∧ (errorResult e).topSources = some []
        ∧ (errorResult e).getStr "error" = some e) := by
  unfold verify_news_with_ground_truth
  cases h : (pipelineBody inp o).1 with
  | ok r => exact Or.inl ⟨r, rfl, rfl⟩
  | error e => exact Or.inr ⟨e, rfl, rfl, rfl, rfl, rfl, rfl⟩

/-- C9: a request with a missing or empty Text field, or a missing Real/Fake
field, is rejected before any collaborator call: no extraction, search or
ranking call happens and the result is the ERROR result of the top-level
handler for one of the two validation messages. -/
theorem claim_C9 (inp : NewsInput) (o : Oracle)
    (h : inp.text.getD "" = "" ∨ inp.realFake = none) :
    (verifyInfo inp o).extractCalled = false
    ∧ (verifyInfo inp o).searchCalled = false
    ∧ (verifyInfo inp o).rankCalled = false
    ∧ ∃ e, (e = "News text is required"
            ∨ e = "Real/Fake label is required (1 for real, 0 for fake)")
        ∧ verify_news_with_ground_truth inp o = errorResult e := by
  by_cases ht : inp.text.getD "" = ""
  · unfold verifyInfo verify_news_with_ground_truth pipelineBody
    rw [if_pos ht]
    exact ⟨rfl, rfl, rfl, "News text is required", Or.inl rfl, rfl⟩
  · cases h with
    | inl h1 => exact absurd h1 ht
    | inr h2 =>
        unfold verifyInfo verify_news_with_ground_truth pipelineBody
        rw [if_neg ht, h2]
        exact ⟨rfl, rfl, rfl,
          "Real/Fake label is required (1 for real, 0 for fake)", Or.inr rfl, rfl⟩

/-- C9 witness: a concrete request with no Text field makes zero
collaborator calls and yields the validation ERROR result. -/
theorem claim_C9_witness :
    (inpMissingText.text.getD "" = "" ∨ inpMissingText.realFake = none)
    ∧ ((verifyInfo inpMissingText orAny).extractCalled = false
       ∧ (verifyInfo inpMissingText orAny).searchCalled = false
       ∧ (verifyInfo inpMissingText orAny).rankCalled = false
       ∧ ∃ e, (e = "News text is required"
               ∨ e = "Real/Fake label is required (1 for real, 0 for fake)")
           ∧ verify_news_with_ground_truth inpMissingText orAny = errorResult e) :=
  ⟨Or.inl rfl, claim_C9 inpMissingText orAny (Or.inl rfl)⟩

/-- C1 (amended): for every valid request (non-empty text, Real/Fake label
in 0/1) and every collaborator behaviour, either the run ends on the
successful JSON-parse path of the ranker and the parsed collaborator object
is returned verbatim (its label is whatever the collaborator supplied), or
the result label is the mapped ground-truth label (1 to REAL, 0 to FAKE),
or an exception reached the top-level handler and the label is ERROR. -/
theorem claim_C1 (inp : NewsInput) (o : Oracle) (lab : Int)
    (hT : inp.text.getD "" ≠ "")
    (hL : inp.realFake = some (PyVal.pInt lab))
    (hlab : lab = 0 ∨ lab = 1) :
    (∃ j, o.rankResp = RankOutcome.parsed j
        ∧ verify_news_with_ground_truth inp o = j)
    ∨ ((verify_news_with_ground_truth inp o).getStr "label" = some (mappedLabel lab)
        ∧ (mappedLabel lab = "REAL" ∨ mappedLabel lab = "FAKE"))
    ∨ (∃ e, (pipelineBody inp o).1 = Except.error e
        ∧ (verify_news_with_ground_truth inp o).getStr "label" = some "ERROR") := by
  have hb : pipelineBody inp o = pipelineAfterLabel ((lab : Int) != 0) o :=
    pipelineBody_valid inp o (PyVal.pInt lab) lab hT hL rfl
  have hmap : mappedLabel lab = "REAL" ∨ mappedLabel lab = "FAKE" := by
    unfold mappedLabel
    by_cases h : (lab == 0) = true
    · right
      simp [h]
    · left
      simp [h]
  rcases afterLabel_cases (lab != 0) o with ⟨j, hj, hok⟩ | ⟨r, hok, hlabel, _⟩ | ⟨e, herr⟩
  · refine Or.inl ⟨j, hj, ?_⟩
    unfold verify_news_with_ground_truth
    rw [hb, hok]
  · refine Or.inr (Or.inl ⟨?_, hmap⟩)
    unfold verify_news_with_ground_truth
    rw [hb, hok]
    rw [labelStr_mapped] at hlabel
    exact hlabel
  · refine Or.inr (Or.inr ⟨e, ?_, ?_⟩)
    · rw [hb]
      exact herr
    · unfold verify_news_with_ground_truth
      rw [hb, herr]
      rfl

/-- C1 counterexample: a valid request on which every stage succeeds and the
ranking collaborator returns parseable JSON whose label field is BANANA: the
pipeline returns that object verbatim, so the result label is outside
REAL/FAKE/ERROR although no configuration or validation error occurred. -/
theorem claim_C1_counterexample :
    sampleInput.text.getD "" ≠ ""
    ∧ sampleInput.realFake = some (PyVal.pInt 1)
    ∧ orParsedBanana.configFail = none
    ∧ (verify_news_with_ground_truth sampleInput orParsedBanana).getStr "label"
        = some "BANANA"
    ∧ ¬("BANANA" = "REAL" ∨ "BANANA" = "FAKE" ∨ "BANANA" = "ERROR") :=
  ⟨by decide, rfl, rfl, rfl, by decide⟩

/-- C1 witness: the run whose claim extraction yields nothing takes the
mapped-label disjunct. -/
theorem claim_C1_witness :
    sampleInput.text.getD "" ≠ ""
    ∧ sampleInput.realFake = some (PyVal.pInt 1)
    ∧ ((1 : Int) = 0 ∨ (1 : Int) = 1)
    ∧ ((∃ j, orNoClaims.rankResp = RankOutcome.parsed j
          ∧ verify_news_with_ground_truth sampleInput orNoClaims = j)
       ∨ ((verify_news_with_ground_truth sampleInput orNoClaims).getStr "label"
            = some (mappedLabel 1)
          ∧ (mappedLabel 1 = "REAL" ∨ mappedLabel 1 = "FAKE"))
       ∨ (∃ e, (pipelineBody sampleInput orNoClaims).1 = Except.error e
          ∧ (verify_news_with_ground_truth sampleInput orNoClaims).getStr "label"
              = some "ERROR")) :=
  ⟨by decide, rfl, Or.inr rfl,
   claim_C1 sampleInput orNoClaims 1 (by decide) rfl (Or.inr rfl)⟩

/-- C2 (amended): for every valid request, either the run ends on the
successful JSON-parse path and the parsed object is returned verbatim
(nothing constrains its top_5_sources), or the result satisfies the
top-sources invariant: at most five entries with ranks exactly 1..k. -/
theorem claim_C2 (inp : NewsInput) (o : Oracle) (lab : Int)
    (hT : inp.text.getD "" ≠ "")
    (hL : inp.realFake = some (PyVal.pInt lab))
    (hlab : lab = 0 ∨ lab = 1) :
    (∃ j, o.rankResp = RankOutcome.parsed j
        ∧ verify_news_with_ground_truth inp o = j)
    ∨ goodTopSources (verify_news_with_ground_truth inp o) = true := by
  have hb : pipelineBody inp o = pipelineAfterLabel ((lab : Int) != 0) o :=
    pipelineBody_valid inp o (PyVal.pInt lab) lab hT hL rfl
  rcases afterLabel_cases (lab != 0) o with ⟨j, hj, hok⟩ | ⟨r, hok, _, hgood⟩ | ⟨e, herr⟩
  · refine Or.inl ⟨j, hj, ?_⟩
    unfold verify_news_with_ground_truth
    rw [hb, hok]
  · refine Or.inr ?_
    unfold verify_news_with_ground_truth
    rw [hb, hok]
    exact hgood
  · refine Or.inr ?_
    unfold verify_news_with_ground_truth
    rw [hb, herr]
    rfl

/-- C2 counterexample: a valid request whose ranking collaborator returns
parseable JSON carrying a single source of rank 3: the pipeline returns it
verbatim and the dense-ranks invariant fails. -/
theorem claim_C2_counterexample :
    sampleInput.text.getD "" ≠ ""
    ∧ sampleInput.realFake = some (PyVal.pInt 1)
    ∧ (verify_news_with_ground_truth sampleInput orParsedBadSources).topSources
        = some [JsonVal.jObj [("rank", JsonVal.jInt 3)]]
    ∧ goodTopSources (verify_news_with_ground_truth sampleInput orParsedBadSources)
        = false :=
  ⟨by decide, rfl, rfl, rfl⟩

/-- C2 witness: the zero-hit run satisfies the top-sources invariant. -/
theorem claim_C2_witness :
    sampleInput.text.getD "" ≠ ""
    ∧ sampleInput.realFake = some (PyVal.pInt 1)
    ∧ ((1 : Int) = 0 ∨ (1 : Int) = 1)
    ∧ ((∃ j, orNoHits.rankResp = RankOutcome.parsed j
          ∧ verify_news_with_ground_truth sampleInput orNoHits = j)
       ∨ goodTopSources (verify_news_with_ground_truth sampleInput orNoHits) = true) :=
  ⟨by decide, rfl, Or.inr rfl,
   claim_C2 sampleInput orNoHits 1 (by decide) rfl (Or.inr rfl)⟩

/-- C3 (amended): for every non-empty hit list all of whose first five hits
have a URL with a host segment (at least three slash-separated segments),
and every ranking response whose cleaned text is not valid JSON, the ranker
returns the fallback result: label from the target label, the generic
explanation, and exactly min(5, hit count) sources taken from the hits in
their original order, the i-th carrying rank i+1, relevance medium, the
generic per-source explanation, and a source_name obtained from the third
slash-separated segment of the URL by removing every occurrence of the
substring www-dot, cutting at the first dot and title-casing.  A hit URL
without a host segment instead raises an IndexError out of the handler. -/
theorem claim_C3 (is_real : Bool) (hits : List Hit) (msg : String)
    (hne : hits ≠ [])
    (hhosts : ∀ h ∈ hits.take 5, (hostOf h.url).isSome = true) :
    select_top_5_with_explanations is_real hits (RankOutcome.parseError msg)
      = Except.ok (JsonVal.jObj
          [("label", JsonVal.jStr (labelStr is_real)),
           ("overall_explanation", JsonVal.jStr ("Analysis indicates this news appears to be "
              ++ (if is_real then "real" else "fake") ++ " based on available sources.")),
           ("top_5_sources", JsonVal.jArr ((List.enumFrom 0 (hits.take 5)).map
              (fun p => specFallbackEntry p.1 p.2)))])
    ∧ ((List.enumFrom 0 (hits.take 5)).map (fun p => specFallbackEntry p.1 p.2)).length
        = min 5 hits.length := by
  constructor
  · unfold select_top_5_with_explanations
    rw [fallbackAux_hosts (hits.take 5) 0 hhosts]
  · simp [List.enumFrom_length, List.length_take]

/-- C3 counterexample: with a hit whose URL has no host segment the fallback
raises (list index out of range) instead of returning a degraded result. -/
theorem claim_C3_counterexample :
    select_top_5_with_explanations true [badHit] (RankOutcome.parseError "Expecting value")
      = Except.error "list index out of range" := rfl

/-- C3 witness: one well-formed hit produces the one-source fallback. -/
theorem claim_C3_witness :
    ([sampleHit] : List Hit) ≠ []
    ∧ (∀ h ∈ ([sampleHit] : List Hit).take 5, (hostOf h.url).isSome = true)
    ∧ select_top_5_with_explanations true [sampleHit]
        (RankOutcome.parseError "Expecting value")
      = Except.ok (JsonVal.jObj
          [("label", JsonVal.jStr "REAL"),
           ("overall_explanation", JsonVal.jStr "Analysis indicates this news appears to be real based on available sources."),
           ("top_5_sources", JsonVal.jArr
              [JsonVal.jObj
                [("rank", JsonVal.jInt 1),
                 ("url", JsonVal.jStr "https://www.ndtv.com/india-news/story"),
                 ("title", JsonVal.jStr "Story title"),
                 ("source_name", JsonVal.jStr "Ndtv"),
                 ("relevance", JsonVal.jStr "medium"),
                 ("explanation", JsonVal.jStr "This source provides information related to the claims in the article.")]])]) :=
  ⟨by decide, by decide,
   (claim_C3 true [sampleHit] "Expecting value" (by decide) (by decide)).1⟩

/-- C4 (amended): on a valid request whose claim extraction returns zero
claims (and whose configuration succeeded), the search stage is never
invoked and the pipeline returns the empty-claims result whose explanation
is the string beginning with a capital C: Could not extract claims for
verification. -/
theorem claim_C4 (inp : NewsInput) (o : Oracle) (lab : Int)
    (hT : inp.text.getD "" ≠ "")
    (hL : inp.realFake = some (PyVal.pInt lab))
    (hlab : lab = 0 ∨ lab = 1)
    (hcf : o.configFail = none)
    (hce : extract_claims_for_verification o.claimsResp = []) :
    verify_news_with_ground_truth inp o
      = JsonVal.jObj
          [("label", JsonVal.jStr (mappedLabel lab)),
           ("overall_explanation", JsonVal.jStr "Could not extract claims for verification"),
           ("top_5_sources", JsonVal.jArr [])]
    ∧ (verifyInfo inp o).searchCalled = false
    ∧ (verifyInfo inp o).rankCalled = false := by
  have hb : pipelineBody inp o = pipelineAfterLabel ((lab : Int) != 0) o :=
    pipelineBody_valid inp o (PyVal.pInt lab) lab hT hL rfl
  have hpa : pipelineAfterLabel ((lab : Int) != 0) o
      = (.ok (emptyClaimsResult (lab != 0)), ⟨true, false, false, false⟩) := by
    simp [pipelineAfterLabel, hcf, hce]
  unfold verify_news_with_ground_truth verifyInfo
  rw [hb, hpa]
  refine ⟨?_, rfl, rfl⟩
  dsimp only
  unfold emptyClaimsResult
  rw [labelStr_mapped]

/-- C4 counterexample: the concrete empty-claims run returns the explanation
with a capital C, which is not the lowercase string of the claim. -/
theorem claim_C4_counterexample :
    (verify_news_with_ground_truth sampleInput orNoClaims).getStr "overall_explanation"
      = some "Could not extract claims for verification"
    ∧ ("Could not extract claims for verification" : String)
        ≠ "could not extract claims for verification" :=
  ⟨rfl, by decide⟩

/-- C4 witness: the amended statement at the concrete empty-claims run. -/
theorem claim_C4_witness :
    sampleInput.text.getD "" ≠ ""
    ∧ sampleInput.realFake = some (PyVal.pInt 1)
    ∧ orNoClaims.configFail = none
    ∧ extract_claims_for_verification orNoClaims.claimsResp = []
    ∧ (verify_news_with_ground_truth sampleInput orNoClaims
        = JsonVal.jObj
            [("label", JsonVal.jStr (mappedLabel 1)),
             ("overall_explanation", JsonVal.jStr "Could not extract claims for verification"),
             ("top_5_sources", JsonVal.jArr [])]
       ∧ (verifyInfo sampleInput orNoClaims).searchCalled = false
       ∧ (verifyInfo sampleInput orNoClaims).rankCalled = false) :=
  ⟨by decide, rfl, rfl, rfl,
   claim_C4 sampleInput orNoClaims 1 (by decide) rfl (Or.inr rfl) rfl rfl⟩

/-- C5 (amended): on a valid request whose claim extraction yields at least
one claim but whose evidence search returns zero hits, the ranking stage is
never invoked and the pipeline returns the no-evidence result whose
explanation starts with a capital N: No supporting sources found to
verify/debunk this news, the verb depending on the label. -/
theorem claim_C5 (inp : NewsInput) (o : Oracle) (lab : Int)
    (hT : inp.text.getD "" ≠ "")
    (hL : inp.realFake = some (PyVal.pInt lab))
    (hlab : lab = 0 ∨ lab = 1)
    (hcf : o.configFail = none)
    (hce : extract_claims_for_verification o.claimsResp ≠ [])
    (hse : searchHitsOf o.searchOutcome = []) :
    verify_news_with_ground_truth inp o
      = JsonVal.jObj
          [("label", JsonVal.jStr (mappedLabel lab)),
           ("overall_explanation", JsonVal.jStr ("No supporting sources found to "
              ++ (if lab == 0 then "debunk" else "verify") ++ " this news")),
           ("top_5_sources", JsonVal.jArr [])]
    ∧ (verifyInfo inp o).rankCalled = false := by
  have hb : pipelineBody inp o = pipelineAfterLabel ((lab : Int) != 0) o :=
    pipelineBody_valid inp o (PyVal.pInt lab) lab hT hL rfl
  have hceb : (extract_claims_for_verification o.claimsResp).isEmpty = false := by
    cases hcl : extract_claims_for_verification o.claimsResp with
    | nil => exact absurd hcl hce
    | cons a l => rfl
  have hpa : pipelineAfterLabel ((lab : Int) != 0) o
      = (.ok (noEvidenceResult (lab != 0)), ⟨true, true, false, false⟩) := by
    simp [pipelineAfterLabel, hcf, hceb, hse, search_supporting_evidence]
  unfold verify_news_with_ground_truth verifyInfo
  rw [hb, hpa]
  refine ⟨?_, rfl⟩
  dsimp only
  unfold noEvidenceResult
  rw [labelStr_mapped]
  by_cases h : lab = 0
  · simp [h]
  · simp [h, bne_iff_ne, beq_iff_eq]

/-- C5 counterexample: the concrete zero-hit run returns the explanation
with a capital N, which is not the lowercase string of the claim. -/
theorem claim_C5_counterexample :
    (verify_news_with_ground_truth sampleInput orNoHits).getStr "overall_explanation"
      = some "No supporting sources found to verify this news"
    ∧ ("No supporting sources found to verify this news" : String)
        ≠ "no supporting sources found to verify this news" :=
  ⟨rfl, by decide⟩

/-- C5 witness: the amended statement at the concrete zero-hit run. -/
theorem claim_C5_witness :
    sampleInput.text.getD "" ≠ ""
    ∧ sampleInput.realFake = some (PyVal.pInt 1)
    ∧ orNoHits.configFail = none
    ∧ extract_claims_for_verification orNoHits.claimsResp ≠ []
    ∧ searchHitsOf orNoHits.searchOutcome = []
    ∧ (verify_news_with_ground_truth sampleInput orNoHits
        = JsonVal.jObj
            [("label", JsonVal.jStr (mappedLabel 1)),
             ("overall_explanation", JsonVal.jStr ("No supporting sources found to "
                ++ (if (1 : Int) == 0 then "debunk" else "verify") ++ " this news")),
             ("top_5_sources", JsonVal.jArr [])]
       ∧ (verifyInfo sampleInput orNoHits).rankCalled = false) :=
  ⟨by decide, rfl, rfl, by decide, rfl,
   claim_C5 sampleInput orNoHits 1 (by decide) rfl (Or.inr rfl) rfl (by decide) rfl⟩

/-- C10: the Real/Fake field is more permissive than the documented 0/1:
a value whose int() conversion succeeds is accepted, and the run is
identical to the run with the label replaced by 1 when the value is
non-zero and by 0 when it is zero; a value whose conversion fails yields
the ERROR result of the top-level handler.  The conversions of 2, -1, the
string 1 and the string real are recorded concretely. -/
theorem claim_C10 :
    (∀ (inp : NewsInput) (o : Oracle) (v : PyVal) (n : Int),
        inp.text.getD "" ≠ "" → inp.realFake = some v → pyToInt v = .ok n →
        verify_news_with_ground_truth inp o
          = verify_news_with_ground_truth
              ⟨inp.text, inp.imagetext, inp.linkText,
               some (PyVal.pInt (if n == 0 then 0 else 1))⟩ o)
    ∧ (∀ (inp : NewsInput) (o : Oracle) (v : PyVal) (e : String),
        inp.text.getD "" ≠ "" → inp.realFake = some v → pyToInt v = .error e →
        verify_news_with_ground_truth inp o = errorResult e)
    ∧ pyToInt (PyVal.pInt 2) = .ok 2
    ∧ pyToInt (PyVal.pInt (-1)) = .ok (-1)
    ∧ pyToInt (PyVal.pStr "1") = .ok 1
    ∧ pyToInt (PyVal.pStr "real")
        = .error "invalid literal for int() with base 10: real" := by
  refine ⟨?_, ?_, rfl, rfl, rfl, rfl⟩
  · intro inp o v n hT hL hn
    have hb := pipelineBody_valid inp o v n hT hL hn
    have hT2 : (⟨inp.text, inp.imagetext, inp.linkText,
        some (PyVal.pInt (if n == 0 then 0 else 1))⟩ : NewsInput).text.getD "" ≠ "" := hT
    have hb2 := pipelineBody_valid
      ⟨inp.text, inp.imagetext, inp.linkText,
       some (PyVal.pInt (if n == 0 then 0 else 1))⟩ o
      (PyVal.pInt (if n == 0 then 0 else 1)) (if n == 0 then 0 else 1) hT2 rfl rfl
    have hbeq : ((if n == 0 then (0 : Int) else 1) != 0) = (n != 0) := by
      by_cases h : n = 0
      · simp [h]
      · simp [h, bne_iff_ne, beq_iff_eq]
    rw [hbeq] at hb2
    unfold verify_news_with_ground_truth
    rw [hb, hb2]
  · intro inp o v e hT hL he
    unfold verify_news_with_ground_truth pipelineBody
    rw [if_neg hT, hL]
    dsimp only
    rw [he]

/-- C10 witness: label 2 behaves exactly like label 1, and the label string
real yields the concrete int-conversion ERROR result. -/
theorem claim_C10_witness :
    verify_news_with_ground_truth inpLabel2 orNoClaims
      = verify_news_with_ground_truth sampleInput orNoClaims
    ∧ verify_news_with_ground_truth inpLabelWord orAny
      = errorResult "invalid literal for int() with base 10: real" :=
  ⟨claim_C10.1 inpLabel2 orNoClaims (PyVal.pInt 2) 2 (by decide) rfl rfl,
   claim_C10.2.1 inpLabelWord orAny (PyVal.pStr "real")
     "invalid literal for int() with base 10: real" (by decide) rfl rfl⟩
